import Mathlib

/-!
Verification of the Philote-Cpp marshaling core.

This file gives a shallow embedding, in Lean, of the parts of the Philote
C++ code base that the verified properties talk about: the `Variable`
array codec (`src/src/utils/variable.cpp`), the partial-shape inference
algorithm (`src/src/discipline/discipline.cpp`), the client call layer
(`src/src/discipline/discipline_client.cpp`, `explicit_client.cpp`,
`implicit_client.cpp`) and the server handlers
(`discipline_server.cpp`, `explicit_server.cpp`, `include/implicit.h`).

Conventions of the embedding:
- machine integers are modelled as `Nat`/`Int`; where C++ unsigned
  wrap-around matters (`size_t` subtraction, `int64 -> size_t` and
  `size_t -> int` casts) the wrap is written out explicitly with `% 2 ^ w`;
- C++ exceptions become `Except CppError`, with one constructor per
  exception class thrown by the sources;
- gRPC streams are modelled by the list of messages written to them; a
  bidirectional call's inbound side is a list of chunk messages folded
  into the receiving state;
- the element type of a buffer is a type parameter `alpha`: the codec
  never computes with the payload values, it only moves them, so the
  embedding is stated for an arbitrary element type and instantiated at
  `Int` in concrete evaluations.
-/

namespace Philote

/-- Modelled from the spec: the variable-role enum of the wire schema
(`VariableType` in the generated protobuf code, whose `.proto` source is
not part of the tree). The spec's data model lists the roles
Input | Output | Residual/Partial; `kResidualKind`/`kPartialsKind` stand
for the two non-input, non-output roles. Only `kInput` and `kOutput` are
ever matched on by the sources under `src/`. -/
inductive VariableType where
  | kInput
  | kOutput
  | kResidualKind
  | kPartialsKind
  deriving DecidableEq, Repr

export VariableType (kInput kOutput)

/-- Modelled from the spec: the numeric values of the wire enum, used
only to render the C++ `std::to_string(var->type())` fragments of error
messages; no theorem below depends on the particular numbers. -/
def vtNum : VariableType → Nat
  | .kInput => 0
  | .kOutput => 2
  | .kResidualKind => 4
  | .kPartialsKind => 5

/-- The C++ exception classes thrown by the embedded sources, with the
`what()` message. -/
inductive CppError where
  | invalid_argument (msg : String)
  | out_of_range (msg : String)
  | length_error (msg : String)
  | runtime_error (msg : String)
  deriving DecidableEq, Repr

/-- `what()` of a caught `std::exception`. -/
def CppError.what : CppError → String
  | .invalid_argument m => m
  | .out_of_range m => m
  | .length_error m => m
  | .runtime_error m => m

/-- The chunk message (`philote::Array` of the wire schema): variable
name, optional input name (`subname`), inclusive start and end indices
(signed 64-bit on the wire, hence `Int`), role tag and payload. -/
structure ArrayMsg (alpha : Type) where
  name : String
  subname : String
  start : Int
  end_ : Int
  type : VariableType
  data : List alpha
  deriving DecidableEq, Repr

/-- `philote::VariableMetaData`: name, role, shape (list of `int64` on
the wire) and units. -/
structure VariableMetaData where
  name : String
  type : VariableType
  shape : List Int
  units : String
  deriving DecidableEq, Repr

/-- `philote::Variable` (`src/include/variable.h`): role tag, shape
(`std::vector<size_t>`) and the flat row-major buffer `data_`. -/
structure Variable (alpha : Type) where
  type_ : VariableType
  shape_ : List Nat
  data_ : List alpha
  deriving DecidableEq, Repr

/-- The C++ conversion `int64 -> size_t`: reduction modulo `2 ^ 64`. -/
def sizeTOfInt (i : Int) : Nat :=
  (i % (2 ^ 64 : Int)).toNat

/-- The C++ `size_t` expression `n - 1`, which wraps around at `n = 0`. -/
def pred64 (n : Nat) : Nat :=
  (n + (2 ^ 64 - 1)) % 2 ^ 64

/-- The C++ cast `static_cast<int>` of a `size_t` value: reduction modulo
`2 ^ 32` into the signed range. -/
def toInt32 (n : Nat) : Int :=
  let r : Nat := n % 2 ^ 32
  if r < 2 ^ 31 then (r : Int) else (r : Int) - 2 ^ 32

/-- `Variable::Variable(const VariableType&, const std::vector<size_t>&)`
(`variable.cpp:44-57`): record the shape, compute
`size = 1; for i in shape: size *= i` and default-construct the buffer
(`data_.resize(size)`). -/
def Variable.ofTypeShape {alpha : Type} [Inhabited alpha]
    (type : VariableType) (shape : List Nat) : Variable alpha :=
  { type_ := type
    shape_ := shape
    data_ := List.replicate (shape.foldl (fun a b => a * b) 1) default }

/-- `Variable::Variable(const VariableMetaData&)` (`variable.cpp:59-73`):
the metadata shape entries (`int64`) are pushed into a
`std::vector<size_t>`, then the buffer is sized exactly as above. -/
def Variable.ofVariableMetaData {alpha : Type} [Inhabited alpha]
    (meta : VariableMetaData) : Variable alpha :=
  let shape := meta.shape.map sizeTOfInt
  { type_ := meta.type
    shape_ := shape
    data_ := List.replicate (shape.foldl (fun a b => a * b) 1) default }

/-- `Variable::Size()` (`variable.cpp:128-131`): `data_.size()`. -/
def Variable.Size {alpha : Type} (v : Variable alpha) : Nat :=
  v.data_.length

/-- `Variable::Shape()` (`variable.cpp:123-126`). -/
def Variable.Shape {alpha : Type} (v : Variable alpha) : List Nat :=
  v.shape_

/-- `Variable::operator()(const size_t&)` (`variable.cpp:133-145`), const
and non-const overloads: both throw `std::out_of_range` for
`i >= data_.size()` and otherwise return the element. -/
def Variable.get {alpha : Type} [Inhabited alpha]
    (v : Variable alpha) (i : Nat) : Except CppError alpha :=
  if i ≥ v.data_.length then
    .error (.out_of_range "Index out of range in Variable::operator()")
  else
    .ok (v.data_.getD i default)

/-- The write loop of the `Segment` setter and of `AssignChunk`:
`for i in 0..count-1: data_[start+i] = data[i]`. -/
def writeSeg {alpha : Type} : List alpha → Nat → List alpha → List alpha
  | v, _, [] => v
  | v, i, d :: ds => writeSeg (v.set i d) (i + 1) ds

/-- `Variable::Segment(start, end, data)` setter (`variable.cpp:91-109`).
Check order as in the source: `start > end`, then `end >= data_.size()`,
then the length check, then the write loop.  (The source's
`data.size() == 0 && start > end` early-return is dead code: `start > end`
has already thrown.)  On any error the buffer is not written. -/
def Variable.SegmentSet {alpha : Type} (v : Variable alpha)
    (start end_ : Nat) (data : List alpha) : Except CppError (Variable alpha) :=
  if start > end_ then
    .error (.invalid_argument "Start index greater than end index in Variable::Segment")
  else if end_ ≥ v.data_.length then
    .error (.out_of_range "End index out of range in Variable::Segment")
  else if end_ - start + 1 ≠ data.length then
    .error (.length_error ("Vector data has incompatable length. Should be " ++
      toString (end_ - start + 1) ++ ", but received " ++ toString data.length ++ "."))
  else
    .ok { v with data_ := writeSeg v.data_ start data }

/-- `Variable::Segment(start, end)` getter (`variable.cpp:111-121`):
same `start > end` and `end >= data_.size()` checks, then
`data[i] = data_.at(start + i)` for `i in 0..end-start`. -/
def Variable.SegmentGet {alpha : Type} (v : Variable alpha)
    (start end_ : Nat) : Except CppError (List alpha) :=
  if start > end_ then
    .error (.invalid_argument "Start index greater than end index in Variable::Segment getter")
  else if end_ ≥ v.data_.length then
    .error (.out_of_range "End index out of range in Variable::Segment getter")
  else
    .ok ((v.data_.drop start).take (end_ - start + 1))

/-- `Variable::CreateChunk` (`variable.cpp:147-161`): set start, end and
the role tag, and copy `Segment(start, end)` into the payload.  `name`
and `subname` are filled in by the caller (`Send`). -/
def Variable.CreateChunk {alpha : Type} (v : Variable alpha)
    (start end_ : Nat) : Except CppError (ArrayMsg alpha) := do
  let segment ← v.SegmentGet start end_
  .ok { name := ""
        subname := ""
        start := (start : Int)
        end_ := (end_ : Int)
        type := v.type_
        data := segment }

/-- The chunk loop of the client-side `Variable::Send`
(`variable.cpp:163-196` and the identical `ClientReaderWriterInterface`
overload at `variable.cpp:238-266`): iteration `i` covers
`start = i * chunk_size`, `end = start + chunk_size - 1` clamped to
`n - 1` (a `size_t` subtraction, which wraps for `n = 0`).  A successful
stream write appends the chunk; the stream is modelled as the list of
messages written. -/
def sendClientGo {alpha : Type} (v : Variable alpha) (name subname : String)
    (chunk_size n : Nat) : Nat → Nat → Except CppError (List (ArrayMsg alpha))
  | _, 0 => .ok []
  | i, k + 1 => do
    let start := i * chunk_size
    let e := start + chunk_size - 1
    let e := if e ≥ n then pred64 n else e
    let chunk ← v.CreateChunk start e
    let rest ← sendClientGo v name subname chunk_size n (i + 1) k
    .ok ({ chunk with name := name, subname := subname } :: rest)

/-- Client-side `Variable::Send` (`variable.cpp:163-196`):
`num_chunks = n / chunk_size` (floor division), bumped to 1 when it is 0,
then the chunk loop. -/
def Variable.SendClient {alpha : Type} (v : Variable alpha)
    (name subname : String) (chunk_size : Nat) : Except CppError (List (ArrayMsg alpha)) :=
  let n := v.Size
  let num_chunks := n / chunk_size
  let num_chunks := if num_chunks = 0 then 1 else num_chunks
  sendClientGo v name subname chunk_size n 0 num_chunks

/-- The chunk loop of the server-side `Variable::Send` overload
(`variable.cpp:198-236`): identical to the client loop except that each
iteration first checks `context != nullptr && context->IsCancelled()`
and throws a cancellation `std::runtime_error` when that holds.  The
`ServerContext*` is modelled as `Option Bool`: `none` for a null
pointer, `some c` for a context whose `IsCancelled()` returns `c`. -/
def sendServerGo {alpha : Type} (v : Variable alpha) (name subname : String)
    (chunk_size n : Nat) (context : Option Bool) :
    Nat → Nat → Except CppError (List (ArrayMsg alpha))
  | _, 0 => .ok []
  | i, k + 1 => do
    if context = some true then
      .error (.runtime_error ("Operation cancelled while sending variable " ++ name))
    else
      let start := i * chunk_size
      let e := start + chunk_size - 1
      let e := if e ≥ n then pred64 n else e
      let chunk ← v.CreateChunk start e
      let rest ← sendServerGo v name subname chunk_size n context (i + 1) k
      .ok ({ chunk with name := name, subname := subname } :: rest)

/-- Server-side `Variable::Send` (`variable.cpp:198-236`). -/
def Variable.SendServer {alpha : Type} (v : Variable alpha)
    (name subname : String) (chunk_size : Nat) (context : Option Bool) :
    Except CppError (List (ArrayMsg alpha)) :=
  let n := v.Size
  let num_chunks := n / chunk_size
  let num_chunks := if num_chunks = 0 then 1 else num_chunks
  sendServerGo v name subname chunk_size n context 0 num_chunks

/-- `Variable::AssignChunk` (`variable.cpp:268-289`).  Check order as in
the source: `start < 0`, `end < 0` (both before the narrowing casts to
`size_t`), `start > end`, `end >= data_.size()`, then
`data_size() != static_cast<int>(end - start + 1)`, and only then the
write loop — so on any error no buffer element has been written. -/
def Variable.AssignChunk {alpha : Type} (v : Variable alpha)
    (msg : ArrayMsg alpha) : Except CppError (Variable alpha) :=
  if msg.start < 0 then
    .error (.invalid_argument "Start index cannot be negative in Variable::AssignChunk")
  else if msg.end_ < 0 then
    .error (.invalid_argument "End index cannot be negative in Variable::AssignChunk")
  else
    let start := sizeTOfInt msg.start
    let e := sizeTOfInt msg.end_
    if start > e then
      .error (.invalid_argument "Start index greater than end index in Variable::AssignChunk")
    else if e ≥ v.data_.length then
      .error (.out_of_range "End index out of range in Variable::AssignChunk")
    else if (msg.data.length : Int) ≠ toInt32 (e - start + 1) then
      .error (.length_error "Chunk data size does not match the specified range in Variable::AssignChunk")
    else
      .ok { v with data_ := writeSeg v.data_ start msg.data }

/-- A client's read loop over one variable: every received chunk is
applied with `AssignChunk` (e.g. `explicit_client.cpp:83-87`). -/
def receiveAll {alpha : Type} :
    Variable alpha → List (ArrayMsg alpha) → Except CppError (Variable alpha)
  | v, [] => .ok v
  | v, msg :: rest => do
    let v' ← v.AssignChunk msg
    receiveAll v' rest

/-! ### Helper lemmas about the embedding -/

theorem writeSeg_eq {alpha : Type} (d : List alpha) :
    ∀ (v : List alpha) (s : Nat), s + d.length ≤ v.length →
      writeSeg v s d = v.take s ++ d ++ v.drop (s + d.length) := by
  induction d with
  | nil =>
    intro v s _
    simp [writeSeg]
  | cons a ds ih =>
    intro v s h
    have hs : s < v.length := by simp at h; omega
    have hlen : (v.set s a).length = v.length := by simp
    have h' : s + 1 + ds.length ≤ (v.set s a).length := by simp at h ⊢; omega
    rw [writeSeg, ih (v.set s a) (s + 1) h']
    rw [List.set_eq_take_cons_drop a hs]
    have htake : (v.take s ++ a :: v.drop (s + 1)).take (s + 1) = v.take s ++ [a] := by
      rw [List.take_append_eq_append_take]
      have hlts : (v.take s).length = s := List.length_take_of_le (le_of_lt hs)
      simp [hlts]
    have hdrop : (v.take s ++ a :: v.drop (s + 1)).drop (s + 1 + ds.length) =
        v.drop (s + 1 + ds.length) := by
      rw [List.drop_append_eq_append_drop]
      have hlts : (v.take s).length = s := List.length_take_of_le (le_of_lt hs)
      rw [hlts]
      have h1 : s + 1 + ds.length - s = ds.length + 1 := by omega
      have h2 : s + 1 + ds.length - (s + 1) = ds.length := by omega
      simp [h1, h2, List.drop_drop]
      omega
    rw [htake, hdrop]
    have hidx : s + 1 + ds.length = s + (a :: ds).length := by simp; omega
    rw [hidx]
    simp [List.append_assoc]

theorem foldl_mul_acc_zero (l : List Nat) : l.foldl (fun a b => a * b) 0 = 0 := by
  induction l with
  | nil => rfl
  | cons x xs ih => simpa using ih

theorem foldl_mul_eq_zero {l : List Nat} (h : 0 ∈ l) :
    l.foldl (fun a b => a * b) 1 = 0 := by
  have key : ∀ (l : List Nat) (a : Nat), 0 ∈ l → l.foldl (fun a b => a * b) a = 0 := by
    intro l
    induction l with
    | nil => intro a h; cases h
    | cons x xs ih =>
      intro a h
      rcases List.mem_cons.mp h with h0 | h0
      · subst h0
        simpa using foldl_mul_acc_zero xs
      · exact ih _ h0
  exact key l 1 h

theorem sizeTOfInt_eq_toNat {i : Int} (h0 : 0 ≤ i) (h1 : i < 2 ^ 64) :
    sizeTOfInt i = i.toNat := by
  unfold sizeTOfInt
  rw [Int.emod_eq_of_lt h0 h1]

theorem toInt32_small {n : Nat} (h : n < 2 ^ 31) : toInt32 n = (n : Int) := by
  unfold toInt32
  have hmod : n % 2 ^ 32 = n := Nat.mod_eq_of_lt (by omega)
  simp only [hmod]
  rw [if_pos h]

/-! ### C1: chunked send / reassembly -/

/-- C1.  The claim asserts that `Variable::Send` emits `ceil(L/C)`
chunks (minimum 1, with a zero-length buffer emitting one chunk with an
empty payload) and that reassembly with `Variable::AssignChunk`
reproduces every buffer.  The code computes the chunk count by FLOOR
division (`variable.cpp:174`), so for `L = 3, C = 2` it emits a single
chunk covering indices 0..1 and silently drops the final element: the
reassembled buffer is `[1, 2, 0]`, not `[1, 2, 3]`.  For `L = 0` the
`size_t` expression `n - 1` wraps to `2^64 - 1` and `Send` throws an
out-of-range error instead of emitting one empty chunk.  This evaluates
the embedded code at both failing inputs. -/
theorem send_floor_division_drops_tail :
    (({ type_ := kInput, shape_ := [3], data_ := [1, 2, 3] } : Variable Int).SendClient "x" "" 2 =
      .ok [{ name := "x", subname := "", start := 0, end_ := 1, type := kInput, data := [1, 2] }]) ∧
    (receiveAll ({ type_ := kInput, shape_ := [3], data_ := [0, 0, 0] } : Variable Int)
        [{ name := "x", subname := "", start := 0, end_ := 1, type := kInput, data := [1, 2] }] =
      .ok { type_ := kInput, shape_ := [3], data_ := [1, 2, 0] }) ∧
    ([1, 2, 0] ≠ ([1, 2, 3] : List Int)) ∧
    (({ type_ := kInput, shape_ := [0], data_ := [] } : Variable Int).SendClient "x" "" 2 =
      .error (.out_of_range "End index out of range in Variable::Segment getter")) := by
  refine ⟨rfl, rfl, by decide, rfl⟩

/-! ### C2: construction from a shape -/

/-- C2 counterexample.  The claim asserts that constructing a `Variable`
from the empty shape yields `Size() = 0`.  The constructor
(`variable.cpp:44-57`) starts the running product at 1 and multiplies by
each dimension, so the empty shape yields a buffer of length 1. -/
theorem variable_empty_shape_size_one :
    (Variable.ofTypeShape kInput [] : Variable Int).Size = 1 ∧
    (Variable.ofTypeShape kInput [] : Variable Int).Size ≠ 0 := by
  exact ⟨rfl, by decide⟩

/-- C2 (amended).  Construction never faults (both constructors are
total functions of the shape), `Size()` is the product of the
dimensions, a shape containing a dimension 0 yields `Size() = 0`, and
the empty shape yields `Size() = 1` (the empty product), not 0.  The
metadata constructor behaves identically once its `int64` dimensions
(all non-negative, below `2 ^ 64`) are converted to `size_t`. -/
theorem variable_construction_size_spec (alpha : Type) [Inhabited alpha]
    (t : VariableType) (shape : List Nat) (meta : VariableMetaData) :
    ((Variable.ofTypeShape t shape : Variable alpha).Size =
      shape.foldl (fun a b => a * b) 1) ∧
    (0 ∈ shape → (Variable.ofTypeShape t shape : Variable alpha).Size = 0) ∧
    (shape = [] → (Variable.ofTypeShape t shape : Variable alpha).Size = 1) ∧
    ((∀ d ∈ meta.shape, 0 ≤ d ∧ d < 2 ^ 64) →
      (Variable.ofVariableMetaData meta : Variable alpha).Size =
        (meta.shape.map Int.toNat).foldl (fun a b => a * b) 1) ∧
    (meta.shape = [] → (Variable.ofVariableMetaData meta : Variable alpha).Size = 1) := by
  refine ⟨?_, ?_, ?_, ?_, ?_⟩
  · simp [Variable.ofTypeShape, Variable.Size]
  · intro h
    simp [Variable.ofTypeShape, Variable.Size, foldl_mul_eq_zero h]
  · intro h
    subst h
    rfl
  · intro h
    have hmap : meta.shape.map sizeTOfInt = meta.shape.map Int.toNat := by
      apply List.map_congr_left
      intro d hd
      exact sizeTOfInt_eq_toNat (h d hd).1 (h d hd).2
    simp [Variable.ofVariableMetaData, Variable.Size, hmap]
  · intro h
    simp [Variable.ofVariableMetaData, Variable.Size, h]

/-- C2 witness: the theorem evaluated at the shape `[2, 0, 3]` and a
metadata entry with shape `[4, 5]`. -/
theorem variable_construction_size_spec_witness :
    (Variable.ofTypeShape kInput [2, 0, 3] : Variable Int).Size = 0 ∧
    ((Variable.ofVariableMetaData
      { name := "x", type := kInput, shape := [4, 5], units := "" } : Variable Int)).Size =
      ([(4 : Int), 5].map Int.toNat).foldl (fun a b => a * b) 1 := by
  refine ⟨?_, ?_⟩
  · exact (variable_construction_size_spec Int kInput [2, 0, 3]
      { name := "x", type := kInput, shape := [4, 5], units := "" }).2.1 (by decide)
  · exact (variable_construction_size_spec Int kInput [2, 0, 3]
      { name := "x", type := kInput, shape := [4, 5], units := "" }).2.2.2.1 (by decide)

/-! ### C3: chunk-bounds validation on receive -/

/-- C3.  `Variable::AssignChunk` (`variable.cpp:268-289`) accepts a
chunk exactly when `0 ≤ start ≤ end < bufferLength` and the payload
length equals `end - start + 1`; the sign checks happen on the `int64`
wire values before the narrowing `size_t` casts, and every check
precedes the write loop, so on error the buffer is untouched (the
embedded function returns the written buffer only in the `ok` case).
The bounds `2 ^ 63` on the wire indices are the `int64` value range, and
`2 ^ 31` on the buffer length makes the `static_cast<int>` in the
payload-length comparison lossless. -/
theorem assignChunk_validates {alpha : Type} (v : Variable alpha) (msg : ArrayMsg alpha)
    (hS : msg.start < 2 ^ 63) (hE : msg.end_ < 2 ^ 63) (hL : v.data_.length < 2 ^ 31) :
    ((0 ≤ msg.start ∧ 0 ≤ msg.end_ ∧ msg.start ≤ msg.end_ ∧
        msg.end_ < (v.data_.length : Int) ∧
        (msg.data.length : Int) = msg.end_ - msg.start + 1) →
      v.AssignChunk msg = .ok ⟨v.type_, v.shape_,
        v.data_.take msg.start.toNat ++ msg.data ++
          v.data_.drop (msg.start.toNat + msg.data.length)⟩) ∧
    (¬(0 ≤ msg.start ∧ 0 ≤ msg.end_ ∧ msg.start ≤ msg.end_ ∧
        msg.end_ < (v.data_.length : Int) ∧
        (msg.data.length : Int) = msg.end_ - msg.start + 1) →
      ∃ e, v.AssignChunk msg = .error e) := by
  have h64 : (2 : Int) ^ 63 < 2 ^ 64 := by norm_num
  constructor
  · rintro ⟨h1, h2, h3, h4, h5⟩
    have hs : sizeTOfInt msg.start = msg.start.toNat :=
      sizeTOfInt_eq_toNat h1 (lt_trans hS h64)
    have he : sizeTOfInt msg.end_ = msg.end_.toNat :=
      sizeTOfInt_eq_toNat h2 (lt_trans hE h64)
    have hsmall : msg.end_.toNat - msg.start.toNat + 1 < 2 ^ 31 := by omega
    simp only [Variable.AssignChunk, hs, he, toInt32_small hsmall]
    rw [if_neg (by omega), if_neg (by omega), if_neg (by omega), if_neg (by omega),
      if_neg (by simp only [ne_eq, not_not]; omega)]
    rw [writeSeg_eq msg.data v.data_ msg.start.toNat (by omega)]
  · intro hn
    simp only [Variable.AssignChunk]
    split_ifs with h1 h2 h3 h4 h5
    · exact ⟨_, rfl⟩
    · exact ⟨_, rfl⟩
    · exact ⟨_, rfl⟩
    · exact ⟨_, rfl⟩
    · exact ⟨_, rfl⟩
    · exfalso
      apply hn
      have h1' : (0 : Int) ≤ msg.start := by omega
      have h2' : (0 : Int) ≤ msg.end_ := by omega
      have hs : sizeTOfInt msg.start = msg.start.toNat :=
        sizeTOfInt_eq_toNat h1' (lt_trans hS h64)
      have he : sizeTOfInt msg.end_ = msg.end_.toNat :=
        sizeTOfInt_eq_toNat h2' (lt_trans hE h64)
      simp only [hs, he] at h3 h4 h5
      have hsmall : msg.end_.toNat - msg.start.toNat + 1 < 2 ^ 31 := by omega
      rw [toInt32_small hsmall] at h5
      simp only [ne_eq, not_not] at h5
      exact ⟨h1', h2', by omega, by omega, by omega⟩

/-- C3 witness: a valid chunk `(start, end) = (1, 2)` with a two-element
payload, applied to a three-element buffer. -/
theorem assignChunk_validates_witness :
    ({ type_ := kInput, shape_ := [3], data_ := [10, 20, 30] } : Variable Int).AssignChunk
      { name := "x", subname := "", start := 1, end_ := 2, type := kInput, data := [7, 8] } =
    .ok { type_ := kInput, shape_ := [3], data_ := [10, 7, 8] } :=
  (assignChunk_validates
    ({ type_ := kInput, shape_ := [3], data_ := [10, 20, 30] } : Variable Int)
    { name := "x", subname := "", start := 1, end_ := 2, type := kInput, data := [7, 8] }
    (by decide) (by decide) (by decide)).1 (by decide)

/-! ### C10: element and range accessors -/

/-- C10.  The element accessor `operator()` (const and non-const,
`variable.cpp:133-145`) throws `std::out_of_range` exactly for
`i >= Size()`; the `Segment` getter and setter (`variable.cpp:91-121`)
throw `std::invalid_argument` for `start > end`, `std::out_of_range` for
`end >= Size()` and (setter) `std::length_error` for a payload whose
length differs from `end - start + 1`; each error is raised before the
copy loop runs, and the embedded setter returns a written buffer only in
the `ok` case, so the buffer is unchanged on error. -/
theorem variable_accessor_bounds {alpha : Type} [Inhabited alpha] (v : Variable alpha)
    (i s e : Nat) (data : List alpha) :
    (i ≥ v.Size → ∃ m, v.get i = .error (.out_of_range m)) ∧
    (i < v.Size → v.get i = .ok (v.data_.getD i default)) ∧
    (s > e → (∃ m, v.SegmentGet s e = .error (.invalid_argument m)) ∧
      (∃ m, v.SegmentSet s e data = .error (.invalid_argument m))) ∧
    (s ≤ e → e ≥ v.Size → (∃ m, v.SegmentGet s e = .error (.out_of_range m)) ∧
      (∃ m, v.SegmentSet s e data = .error (.out_of_range m))) ∧
    (s ≤ e → e < v.Size → data.length ≠ e - s + 1 →
      ∃ m, v.SegmentSet s e data = .error (.length_error m)) ∧
    (s ≤ e → e < v.Size → data.length = e - s + 1 →
      v.SegmentSet s e data = .ok ⟨v.type_, v.shape_,
        v.data_.take s ++ data ++ v.data_.drop (s + data.length)⟩ ∧
      v.SegmentGet s e = .ok ((v.data_.drop s).take (e - s + 1))) := by
  refine ⟨?_, ?_, ?_, ?_, ?_, ?_⟩
  · intro h
    simp only [Variable.Size] at h
    exact ⟨_, by simp only [Variable.get]; rw [if_pos h]⟩
  · intro h
    simp only [Variable.get, Variable.Size] at h ⊢
    rw [if_neg (by omega)]
  · intro h
    constructor
    · exact ⟨_, by simp only [Variable.SegmentGet]; rw [if_pos h]⟩
    · exact ⟨_, by simp only [Variable.SegmentSet]; rw [if_pos h]⟩
  · intro h1 h2
    simp only [Variable.Size] at h2
    constructor
    · exact ⟨_, by simp only [Variable.SegmentGet]; rw [if_neg (by omega), if_pos h2]⟩
    · exact ⟨_, by simp only [Variable.SegmentSet]; rw [if_neg (by omega), if_pos h2]⟩
  · intro h1 h2 h3
    simp only [Variable.Size] at h2
    exact ⟨_, by
      simp only [Variable.SegmentSet]
      rw [if_neg (by omega), if_neg (by omega), if_pos (by omega)]⟩
  · intro h1 h2 h3
    simp only [Variable.Size] at h2
    constructor
    · simp only [Variable.SegmentSet]
      rw [if_neg (by omega), if_neg (by omega), if_neg (by omega)]
      rw [writeSeg_eq data v.data_ s (by omega)]
    · simp only [Variable.SegmentGet]
      rw [if_neg (by omega), if_neg (by omega)]

/-- C10 witness: the accessors evaluated on a two-element buffer, one
valid write and one out-of-range read. -/
theorem variable_accessor_bounds_witness :
    (({ type_ := kInput, shape_ := [2], data_ := [10, 20] } : Variable Int).SegmentSet 0 1 [1, 2] =
      .ok { type_ := kInput, shape_ := [2], data_ := [1, 2] }) ∧
    (∃ m, ({ type_ := kInput, shape_ := [2], data_ := [10, 20] } : Variable Int).get 5 =
      .error (.out_of_range m)) := by
  constructor
  · exact ((variable_accessor_bounds
      ({ type_ := kInput, shape_ := [2], data_ := [10, 20] } : Variable Int)
      5 0 1 [1, 2]).2.2.2.2.2 (by decide) (by decide) (by decide)).1
  · exact (variable_accessor_bounds
      ({ type_ := kInput, shape_ := [2], data_ := [10, 20] } : Variable Int)
      5 0 1 [1, 2]).1 (by decide)

/-! ### C4: partial-shape inference -/

/-- The match of the first lookup loop of `Discipline::ComputePartialShape`
(`discipline.cpp:95-103`): an Output-role entry named `f`. -/
def matchesOutputVar (f : String) (v : VariableMetaData) : Bool :=
  decide (v.name = f ∧ v.type = kOutput)

/-- The match of the second lookup loop (`discipline.cpp:106-128`): an
entry named `x` whose role is Input, or Input-or-Output when
`allow_output_as_x` is set. -/
def matchesInputVar (x : String) (allow_output_as_x : Bool) (v : VariableMetaData) : Bool :=
  if allow_output_as_x then decide (v.name = x ∧ (v.type = kInput ∨ v.type = kOutput))
  else decide (v.name = x ∧ v.type = kInput)

/-- One lookup loop of `ComputePartialShape`: every matching entry
appends its dimensions to the accumulated shape and sets the found
flag. -/
def shapeScan (p : VariableMetaData → Bool) (meta : List VariableMetaData) :
    List Int × Bool :=
  meta.foldl (fun acc v => if p v then (acc.1 ++ v.shape, true) else acc) ([], false)

/-- `Discipline::ComputePartialShape` (`discipline.cpp:86-164`): run the
two lookup loops, throw when either found-flag is false, then combine
the two shapes: `[1]` if both are the scalar shape `[1]`, the other
shape if exactly one is, else the concatenation output-first. -/
def ComputePartialShape (var_meta : List VariableMetaData) (f x : String)
    (allow_output_as_x : Bool) : Except CppError (List Int) :=
  let fr := shapeScan (matchesOutputVar f) var_meta
  let xr := shapeScan (matchesInputVar x allow_output_as_x) var_meta
  if ¬fr.2 ∨ ¬xr.2 then
    .error (.runtime_error "Could not find both input and output variables for partials declaration")
  else if (fr.1.length = 1 ∧ fr.1.getD 0 0 = 1) ∧ (xr.1.length = 1 ∧ xr.1.getD 0 0 = 1) then
    .ok [1]
  else if fr.1.length = 1 ∧ fr.1.getD 0 0 = 1 then
    .ok xr.1
  else if xr.1.length = 1 ∧ xr.1.getD 0 0 = 1 then
    .ok fr.1
  else
    .ok (fr.1 ++ xr.1)

theorem shapeScan_go (p : VariableMetaData → Bool) (meta : List VariableMetaData) :
    ∀ (acc : List Int × Bool),
      meta.foldl (fun acc v => if p v then (acc.1 ++ v.shape, true) else acc) acc =
        (acc.1 ++ ((meta.filter p).map VariableMetaData.shape).flatten, acc.2 || meta.any p) := by
  induction meta with
  | nil => intro acc; simp
  | cons v vs ih =>
    intro acc
    by_cases hv : p v
    · simp only [List.foldl_cons, List.filter_cons, List.any_cons, hv, if_pos, if_true]
      rw [ih]
      simp [List.append_assoc]
    · simp only [List.foldl_cons, List.filter_cons, List.any_cons, hv, if_neg, if_false,
        Bool.false_or]
      rw [ih]
      simp [hv]

theorem shapeScan_spec (p : VariableMetaData → Bool) (meta : List VariableMetaData) :
    shapeScan p meta = (((meta.filter p).map VariableMetaData.shape).flatten, meta.any p) := by
  unfold shapeScan
  rw [shapeScan_go]
  simp

theorem scalar_shape_iff (l : List Int) :
    (l.length = 1 ∧ l.getD 0 0 = 1) ↔ l = [1] := by
  cases l with
  | nil => simp
  | cons a t =>
    cases t with
    | nil => simp [List.getD]
    | cons b u => simp

/-- C4.  `Discipline::ComputePartialShape` with a unique Output-role
entry named `f` and a unique entry named `x` matching the role rule
(Input, or Input-or-Output exactly when `allow_output_as_x` is true)
returns `[1]` when both shapes are `[1]`, the other shape when exactly
one is `[1]`, and the concatenation (output dimensions first) otherwise;
it throws a not-found error when either lookup matches no entry. -/
theorem computePartialShape_table (var_meta : List VariableMetaData) (f x : String)
    (allow : Bool) (vf vx : VariableMetaData)
    (hf : var_meta.filter (matchesOutputVar f) = [vf])
    (hx : var_meta.filter (matchesInputVar x allow) = [vx]) :
    (ComputePartialShape var_meta f x allow = .ok (
      if vf.shape = [1] ∧ vx.shape = [1] then [1]
      else if vf.shape = [1] then vx.shape
      else if vx.shape = [1] then vf.shape
      else vf.shape ++ vx.shape)) ∧
    (∀ (meta' : List VariableMetaData) (g y : String) (allow' : Bool),
      meta'.any (matchesOutputVar g) = false ∨ meta'.any (matchesInputVar y allow') = false →
      ComputePartialShape meta' g y allow' =
        .error (.runtime_error "Could not find both input and output variables for partials declaration")) := by
  constructor
  · have hmemf : vf ∈ var_meta.filter (matchesOutputVar f) := by rw [hf]; exact List.mem_singleton.mpr rfl
    have hmemx : vx ∈ var_meta.filter (matchesInputVar x allow) := by rw [hx]; exact List.mem_singleton.mpr rfl
    have hanyf : var_meta.any (matchesOutputVar f) = true :=
      List.any_eq_true.mpr ⟨vf, (List.mem_filter.mp hmemf).1, (List.mem_filter.mp hmemf).2⟩
    have hanyx : var_meta.any (matchesInputVar x allow) = true :=
      List.any_eq_true.mpr ⟨vx, (List.mem_filter.mp hmemx).1, (List.mem_filter.mp hmemx).2⟩
    unfold ComputePartialShape
    rw [shapeScan_spec, shapeScan_spec, hf, hx, hanyf, hanyx]
    simp only [List.map_cons, List.map_nil, List.flatten_cons, List.flatten_nil,
      List.append_nil, not_true_eq_false, or_self, if_false]
    simp only [scalar_shape_iff]
    split_ifs <;> rfl
  · intro meta' g y allow' h
    unfold ComputePartialShape
    rw [shapeScan_spec, shapeScan_spec]
    rcases h with h | h <;> rw [h] <;> simp

/-- C4 witness: a 2×3 output against a 4-vector input concatenates to
`[2, 3, 4]`, evaluated on concrete metadata. -/
theorem computePartialShape_table_witness :
    ComputePartialShape
      [{ name := "f1", type := kOutput, shape := [2, 3], units := "" },
       { name := "x1", type := kInput, shape := [4], units := "" }]
      "f1" "x1" false = .ok [2, 3, 4] :=
  (computePartialShape_table
    [{ name := "f1", type := kOutput, shape := [2, 3], units := "" },
     { name := "x1", type := kInput, shape := [4], units := "" }]
    "f1" "x1" false
    { name := "f1", type := kOutput, shape := [2, 3], units := "" }
    { name := "x1", type := kInput, shape := [4], units := "" }
    (by decide) (by decide)).1

/-! ### C5: client-side selective send -/

/-- `std::map::count(name) > 0` on a name-keyed map (`Variables` is
`std::map<std::string, Variable>`). -/
def mapContains {gamma : Type} (m : List (String × gamma)) (k : String) : Bool :=
  m.any (fun p => p.1 == k)

/-- `std::map::at(name)`: returns the mapped value, or throws
`std::out_of_range` (libstdc++ message `map::at`) when the key is
absent. -/
def mapAt {gamma : Type} (m : List (String × gamma)) (k : String) :
    Except CppError gamma :=
  match m.find? (fun p => p.1 == k) with
  | some p => .ok p.2
  | none => .error (.out_of_range "map::at")

/-- The send loop of `ExplicitClient::ComputeFunction`
(`explicit_client.cpp:64-77`): for each Input-role metadata entry, send
the caller-supplied variable only when `inputs.count(name) > 0`; the
value of the function is the list of names actually sent, in metadata
order.  The loop cannot fail. -/
def explicitComputeFunctionSentInputs {gamma : Type} (meta : List VariableMetaData)
    (inputs : List (String × gamma)) : List String :=
  meta.foldl (fun acc v =>
    if v.type = kInput ∧ mapContains inputs v.name = true then acc ++ [v.name] else acc) []

/-- The send loop of `ExplicitClient::ComputeGradient`
(`explicit_client.cpp:103-114`): same `count(name) > 0` guard. -/
def explicitComputeGradientSentInputs {gamma : Type} (meta : List VariableMetaData)
    (inputs : List (String × gamma)) : List String :=
  meta.foldl (fun acc v =>
    if v.type = kInput ∧ mapContains inputs v.name = true then acc ++ [v.name] else acc) []

/-- The send loop of `ImplicitClient::SolveResiduals`
(`implicit_client.cpp:109-125`): Input-role entries are sent under the
same `count(name) > 0` guard; Output-role entries are only
preallocated, never sent. -/
def solveResidualsSentInputs {gamma : Type} (meta : List VariableMetaData)
    (vars : List (String × gamma)) : List String :=
  meta.foldl (fun acc v =>
    if v.type = kInput ∧ mapContains vars v.name = true then acc ++ [v.name] else acc) []

/-- The send loop of `ImplicitClient::ComputeResiduals`
(`implicit_client.cpp:59-71`): both Input- and Output-role entries are
sent with an unguarded `vars.at(name)`, which throws when the entry is
absent from the caller-supplied map. -/
def computeResidualsSentVars {gamma : Type} :
    List VariableMetaData → List (String × gamma) → Except CppError (List String)
  | [], _ => .ok []
  | v :: rest, vars => do
    let s1 ← if v.type = kInput then do
        let _ ← mapAt vars v.name
        pure [v.name]
      else pure ([] : List String)
    let s2 ← if v.type = kOutput then do
        let _ ← mapAt vars v.name
        pure [v.name]
      else pure ([] : List String)
    let tail ← computeResidualsSentVars rest vars
    pure (s1 ++ s2 ++ tail)

/-- The send loop of `ImplicitClient::ComputeResidualGradients`
(`implicit_client.cpp:163-175`): textually the same unguarded
`vars.at(name)` loop as `ComputeResiduals`. -/
def computeResidualGradientsSentVars {gamma : Type} :
    List VariableMetaData → List (String × gamma) → Except CppError (List String)
  | [], _ => .ok []
  | v :: rest, vars => do
    let s1 ← if v.type = kInput then do
        let _ ← mapAt vars v.name
        pure [v.name]
      else pure ([] : List String)
    let s2 ← if v.type = kOutput then do
        let _ ← mapAt vars v.name
        pure [v.name]
      else pure ([] : List String)
    let tail ← computeResidualGradientsSentVars rest vars
    pure (s1 ++ s2 ++ tail)

theorem mapAt_ok_of_contains {gamma : Type} {m : List (String × gamma)} {k : String}
    (h : mapContains m k = true) : ∃ g, mapAt m k = .ok g := by
  unfold mapContains at h
  have hsome : (m.find? (fun p => p.1 == k)).isSome := List.find?_isSome.mpr (List.any_eq_true.mp h)
  obtain ⟨p, hp⟩ := Option.isSome_iff_exists.mp hsome
  exact ⟨p.2, by unfold mapAt; rw [hp]⟩

theorem mapAt_error_of_not_contains {gamma : Type} {m : List (String × gamma)} {k : String}
    (h : mapContains m k = false) : mapAt m k = .error (.out_of_range "map::at") := by
  unfold mapContains at h
  have hnone : m.find? (fun p => p.1 == k) = none := by
    cases hf : m.find? (fun p => p.1 == k) with
    | none => rfl
    | some p =>
      exfalso
      have : (m.find? (fun p => p.1 == k)).isSome := by rw [hf]; rfl
      have := List.any_eq_true.mpr (List.find?_isSome.mp this)
      rw [h] at this
      cases this
  unfold mapAt
  rw [hnone]

theorem guardedSent_go {gamma : Type} (vars : List (String × gamma))
    (meta : List VariableMetaData) : ∀ acc : List String,
    meta.foldl (fun acc v =>
        if v.type = kInput ∧ mapContains vars v.name = true then acc ++ [v.name] else acc) acc =
      acc ++ (meta.filter (fun v =>
        decide (v.type = kInput) && mapContains vars v.name)).map (fun v => v.name) := by
  induction meta with
  | nil => intro acc; simp
  | cons v rest ih =>
    intro acc
    by_cases h : v.type = kInput ∧ mapContains vars v.name = true
    · simp only [List.foldl_cons, if_pos h, List.filter_cons]
      rw [ih]
      have hb : (decide (v.type = kInput) && mapContains vars v.name) = true := by
        rw [Bool.and_eq_true, decide_eq_true_eq]
        exact ⟨h.1, h.2⟩
      simp [hb]
    · simp only [List.foldl_cons, if_neg h, List.filter_cons]
      rw [ih]
      have hb : (decide (v.type = kInput) && mapContains vars v.name) = false := by
        by_cases h1 : v.type = kInput
        · cases hc : mapContains vars v.name with
          | true => exact absurd ⟨h1, hc⟩ h
          | false => simp [hc]
        · simp [h1]
      simp [hb]

theorem computeResidualsSentVars_ok {gamma : Type} (meta : List VariableMetaData)
    (vars : List (String × gamma))
    (hall : ∀ v ∈ meta, (v.type = kInput ∨ v.type = kOutput) → mapContains vars v.name = true) :
    computeResidualsSentVars meta vars =
      .ok ((meta.filter (fun v =>
        decide (v.type = kInput) || decide (v.type = kOutput))).map (fun v => v.name)) := by
  induction meta with
  | nil => rfl
  | cons v rest ih =>
    have hrest : ∀ v' ∈ rest, (v'.type = kInput ∨ v'.type = kOutput) →
        mapContains vars v'.name = true :=
      fun v' hv' => hall v' (List.mem_cons_of_mem _ hv')
    have ihr := ih hrest
    by_cases h1 : v.type = kInput
    · have h2 : ¬(v.type = kOutput) := by rw [h1]; intro hcontr; cases hcontr
      have hc : mapContains vars v.name = true := hall v (List.mem_cons_self _ _) (Or.inl h1)
      obtain ⟨g, hg⟩ := mapAt_ok_of_contains hc
      simp only [computeResidualsSentVars, if_pos h1, if_neg h2, hg, ihr, List.filter_cons]
      try simp [h1, h2]
      all_goals rfl
    · by_cases h2 : v.type = kOutput
      · have hc : mapContains vars v.name = true := hall v (List.mem_cons_self _ _) (Or.inr h2)
        obtain ⟨g, hg⟩ := mapAt_ok_of_contains hc
        simp only [computeResidualsSentVars, if_pos h2, if_neg h1, hg, ihr, List.filter_cons]
        simp [h1, h2]
        rfl
      · simp only [computeResidualsSentVars, if_neg h1, if_neg h2, ihr, List.filter_cons]
        simp [h1, h2]

theorem computeResidualsSentVars_missing {gamma : Type} (meta : List VariableMetaData)
    (vars : List (String × gamma))
    (hmiss : ∃ v ∈ meta, (v.type = kInput ∨ v.type = kOutput) ∧ mapContains vars v.name = false) :
    computeResidualsSentVars meta vars = .error (.out_of_range "map::at") := by
  induction meta with
  | nil =>
    obtain ⟨v, hv, _⟩ := hmiss
    cases hv
  | cons v rest ih =>
    obtain ⟨w, hw, hrole, hcont⟩ := hmiss
    by_cases h1 : v.type = kInput
    · have h2 : ¬(v.type = kOutput) := by rw [h1]; intro hcontr; cases hcontr
      cases hvc : mapContains vars v.name with
      | false =>
        have he := mapAt_error_of_not_contains hvc
        simp only [computeResidualsSentVars, if_pos h1, if_neg h2, he]
        rfl
      | true =>
        obtain ⟨g, hg⟩ := mapAt_ok_of_contains hvc
        have hwrest : w ∈ rest := by
          rcases List.mem_cons.mp hw with hwv | hwr
          · subst hwv; rw [hvc] at hcont; cases hcont
          · exact hwr
        have ihr := ih ⟨w, hwrest, hrole, hcont⟩
        simp only [computeResidualsSentVars, if_pos h1, if_neg h2, hg, ihr]
        rfl
    · by_cases h2 : v.type = kOutput
      · cases hvc : mapContains vars v.name with
        | false =>
          have he := mapAt_error_of_not_contains hvc
          simp only [computeResidualsSentVars, if_pos h2, if_neg h1, he]
          rfl
        | true =>
          obtain ⟨g, hg⟩ := mapAt_ok_of_contains hvc
          have hwrest : w ∈ rest := by
            rcases List.mem_cons.mp hw with hwv | hwr
            · subst hwv; rw [hvc] at hcont; cases hcont
            · exact hwr
          have ihr := ih ⟨w, hwrest, hrole, hcont⟩
          simp only [computeResidualsSentVars, if_pos h2, if_neg h1, hg, ihr]
          rfl
      · have hwrest : w ∈ rest := by
          rcases List.mem_cons.mp hw with hwv | hwr
          · subst hwv
            rcases hrole with hr | hr
            · exact absurd hr h1
            · exact absurd hr h2
          · exact hwr
        have ihr := ih ⟨w, hwrest, hrole, hcont⟩
        simp only [computeResidualsSentVars, if_neg h1, if_neg h2, ihr]
        rfl

theorem computeResidualGradientsSentVars_eq {gamma : Type} (meta : List VariableMetaData)
    (vars : List (String × gamma)) :
    computeResidualGradientsSentVars meta vars = computeResidualsSentVars meta vars := by
  induction meta with
  | nil => rfl
  | cons v rest ih =>
    simp only [computeResidualGradientsSentVars, computeResidualsSentVars, ih]

/-- C5 counterexample.  The claim asserts that **every** compute-mode
client call silently skips an Input-role metadata entry missing from the
caller-supplied map.  `ImplicitClient::ComputeResiduals`
(`implicit_client.cpp:59-71`) sends Input- and Output-role entries with
an unguarded `vars.at(name)`: with declared inputs `x`, `z` and output
`y` but a supplied map containing only `x` and `y`, the call throws
`std::out_of_range` instead of skipping `z`. -/
theorem implicit_residuals_missing_input_throws :
    computeResidualsSentVars
      [{ name := "x", type := kInput, shape := [1], units := "" },
       { name := "z", type := kInput, shape := [1], units := "" },
       { name := "y", type := kOutput, shape := [1], units := "" }]
      [("x", ({ type_ := kInput, shape_ := [1], data_ := [3] } : Variable Int)),
       ("y", { type_ := kOutput, shape_ := [1], data_ := [0] })] =
      .error (.out_of_range "map::at") := rfl

/-- C5 (amended).  `ExplicitClient::ComputeFunction`,
`ExplicitClient::ComputeGradient` and `ImplicitClient::SolveResiduals`
silently skip any Input-role entry absent from the caller-supplied map
and transmit exactly the declared-and-supplied Input entries, in
metadata order, without failing; but `ImplicitClient::ComputeResiduals`
and `ImplicitClient::ComputeResidualGradients` send every Input- and
Output-role entry with an unguarded `map::at` and therefore throw
`std::out_of_range` as soon as any such entry is missing (sending all of
them when all are present). -/
theorem client_selective_send_spec {gamma : Type} (meta : List VariableMetaData)
    (vars : List (String × gamma)) :
    (explicitComputeFunctionSentInputs meta vars =
      (meta.filter (fun v =>
        decide (v.type = kInput) && mapContains vars v.name)).map (fun v => v.name)) ∧
    (explicitComputeGradientSentInputs meta vars =
      (meta.filter (fun v =>
        decide (v.type = kInput) && mapContains vars v.name)).map (fun v => v.name)) ∧
    (solveResidualsSentInputs meta vars =
      (meta.filter (fun v =>
        decide (v.type = kInput) && mapContains vars v.name)).map (fun v => v.name)) ∧
    ((∀ v ∈ meta, (v.type = kInput ∨ v.type = kOutput) → mapContains vars v.name = true) →
      computeResidualsSentVars meta vars =
        .ok ((meta.filter (fun v =>
          decide (v.type = kInput) || decide (v.type = kOutput))).map (fun v => v.name)) ∧
      computeResidualGradientsSentVars meta vars =
        .ok ((meta.filter (fun v =>
          decide (v.type = kInput) || decide (v.type = kOutput))).map (fun v => v.name))) ∧
    ((∃ v ∈ meta, (v.type = kInput ∨ v.type = kOutput) ∧ mapContains vars v.name = false) →
      computeResidualsSentVars meta vars = .error (.out_of_range "map::at") ∧
      computeResidualGradientsSentVars meta vars = .error (.out_of_range "map::at")) := by
  refine ⟨?_, ?_, ?_, ?_, ?_⟩
  · unfold explicitComputeFunctionSentInputs
    rw [guardedSent_go]
    simp
  · unfold explicitComputeGradientSentInputs
    rw [guardedSent_go]
    simp
  · unfold solveResidualsSentInputs
    rw [guardedSent_go]
    simp
  · intro hall
    refine ⟨computeResidualsSentVars_ok meta vars hall, ?_⟩
    rw [computeResidualGradientsSentVars_eq]
    exact computeResidualsSentVars_ok meta vars hall
  · intro hmiss
    refine ⟨computeResidualsSentVars_missing meta vars hmiss, ?_⟩
    rw [computeResidualGradientsSentVars_eq]
    exact computeResidualsSentVars_missing meta vars hmiss

/-- C5 witness: with inputs `x`, `z` and output `y` all supplied, the
implicit calls send all three entries; with input `z` omitted, the
explicit call silently skips it. -/
theorem client_selective_send_spec_witness :
    computeResidualsSentVars
      [{ name := "x", type := kInput, shape := [1], units := "" },
       { name := "z", type := kInput, shape := [1], units := "" },
       { name := "y", type := kOutput, shape := [1], units := "" }]
      [("x", ({ type_ := kInput, shape_ := [1], data_ := [3] } : Variable Int)),
       ("z", { type_ := kInput, shape_ := [1], data_ := [4] }),
       ("y", { type_ := kOutput, shape_ := [1], data_ := [0] })] =
      .ok ["x", "z", "y"] :=
  ((client_selective_send_spec
    [{ name := "x", type := kInput, shape := [1], units := "" },
     { name := "z", type := kInput, shape := [1], units := "" },
     { name := "y", type := kOutput, shape := [1], units := "" }]
    [("x", ({ type_ := kInput, shape_ := [1], data_ := [3] } : Variable Int)),
     ("z", { type_ := kInput, shape_ := [1], data_ := [4] }),
     ("y", { type_ := kOutput, shape_ := [1], data_ := [0] })]).2.2.2.1 (by decide)).1

/-! ### C6: client deadlines and timeout classification -/

/-- Modelled from the spec: the gRPC status codes appearing in the
client sources (the gRPC headers are an external collaborator of the
spec's section 6). -/
inductive StatusCode where
  | OK
  | CANCELLED
  | INVALID_ARGUMENT
  | DEADLINE_EXCEEDED
  | NOT_FOUND
  | FAILED_PRECONDITION
  | INTERNAL
  deriving DecidableEq, Repr

/-- Modelled from the spec: the standard numeric values of the gRPC
status codes, used only by `std::to_string(status.error_code())` inside
error-message strings. -/
def statusCodeNum : StatusCode → Nat
  | .OK => 0
  | .CANCELLED => 1
  | .INVALID_ARGUMENT => 3
  | .DEADLINE_EXCEEDED => 4
  | .NOT_FOUND => 5
  | .FAILED_PRECONDITION => 9
  | .INTERNAL => 13

/-- `grpc::Status`: code and message. -/
structure GrpcStatus where
  code : StatusCode
  message : String
  deriving DecidableEq, Repr

/-- `grpc::Status::ok()`. -/
def GrpcStatus.isOkStatus (s : GrpcStatus) : Bool :=
  s.code == .OK

/-- `DisciplineClient::rpc_timeout_` default
(`discipline_client.h:226`): 60000 milliseconds. -/
def rpc_timeout_default : Nat := 60000

/-- Status handling of `DisciplineClient::GetInfo`
(`discipline_client.cpp:62-75`): on a non-OK completion, a
deadline-exceeded status becomes `RPC timeout after <T>ms: <msg>` and
every other code becomes the call's failure message carrying the numeric
code. -/
def getInfoCheckStatus (rpc_timeout : Nat) (status : GrpcStatus) : Except CppError Unit :=
  if status.isOkStatus then .ok ()
  else if status.code = .DEADLINE_EXCEEDED then
    .error (.runtime_error ("RPC timeout after " ++ toString rpc_timeout ++ "ms: " ++ status.message))
  else
    .error (.runtime_error ("Failed to get discipline info [code=" ++
      toString (statusCodeNum status.code) ++ "]: " ++ status.message))

/-- Status handling of `DisciplineClient::SendStreamOptions`
(`discipline_client.cpp:84-94`). -/
def sendStreamOptionsCheckStatus (rpc_timeout : Nat) (status : GrpcStatus) : Except CppError Unit :=
  if status.isOkStatus then .ok ()
  else if status.code = .DEADLINE_EXCEEDED then
    .error (.runtime_error ("RPC timeout after " ++ toString rpc_timeout ++ "ms: " ++ status.message))
  else
    .error (.runtime_error ("Failed to set stream options: " ++ status.message))

/-- Status handling of `DisciplineClient::SendOptions`
(`discipline_client.cpp:103-113`). -/
def sendOptionsCheckStatus (rpc_timeout : Nat) (status : GrpcStatus) : Except CppError Unit :=
  if status.isOkStatus then .ok ()
  else if status.code = .DEADLINE_EXCEEDED then
    .error (.runtime_error ("RPC timeout after " ++ toString rpc_timeout ++ "ms: " ++ status.message))
  else
    .error (.runtime_error ("Failed to set options: " ++ status.message))

/-- Status handling of `DisciplineClient::Setup`
(`discipline_client.cpp:122-132`). -/
def setupCheckStatus (rpc_timeout : Nat) (status : GrpcStatus) : Except CppError Unit :=
  if status.isOkStatus then .ok ()
  else if status.code = .DEADLINE_EXCEEDED then
    .error (.runtime_error ("RPC timeout after " ++ toString rpc_timeout ++ "ms: " ++ status.message))
  else
    .error (.runtime_error ("Failed to setup discipline: " ++ status.message))

/-- Status handling of `DisciplineClient::GetVariableDefinitions`
(`discipline_client.cpp:154-164`). -/
def getVariableDefinitionsCheckStatus (rpc_timeout : Nat) (status : GrpcStatus) : Except CppError Unit :=
  if status.isOkStatus then .ok ()
  else if status.code = .DEADLINE_EXCEEDED then
    .error (.runtime_error ("RPC timeout after " ++ toString rpc_timeout ++ "ms: " ++ status.message))
  else
    .error (.runtime_error ("Failed to get variable definitions: " ++ status.message))

/-- Status handling of `DisciplineClient::GetPartialDefinitions`
(`discipline_client.cpp:186-196`). -/
def getPartialDefinitionsCheckStatus (rpc_timeout : Nat) (status : GrpcStatus) : Except CppError Unit :=
  if status.isOkStatus then .ok ()
  else if status.code = .DEADLINE_EXCEEDED then
    .error (.runtime_error ("RPC timeout after " ++ toString rpc_timeout ++ "ms: " ++ status.message))
  else
    .error (.runtime_error ("Failed to get partial definitions: " ++ status.message))

/-- Status handling of `ImplicitClient::ComputeResiduals`
(`implicit_client.cpp:83-95`). -/
def computeResidualsCheckStatus (rpc_timeout : Nat) (status : GrpcStatus) : Except CppError Unit :=
  if status.isOkStatus then .ok ()
  else if status.code = .DEADLINE_EXCEEDED then
    .error (.runtime_error ("RPC timeout after " ++ toString rpc_timeout ++ "ms: " ++ status.message))
  else
    .error (.runtime_error ("ComputeResiduals RPC failed: [" ++
      toString (statusCodeNum status.code) ++ "] " ++ status.message))

/-- Status handling of `ImplicitClient::SolveResiduals`
(`implicit_client.cpp:137-149`). -/
def solveResidualsCheckStatus (rpc_timeout : Nat) (status : GrpcStatus) : Except CppError Unit :=
  if status.isOkStatus then .ok ()
  else if status.code = .DEADLINE_EXCEEDED then
    .error (.runtime_error ("RPC timeout after " ++ toString rpc_timeout ++ "ms: " ++ status.message))
  else
    .error (.runtime_error ("SolveResiduals RPC failed: [" ++
      toString (statusCodeNum status.code) ++ "] " ++ status.message))

/-- Status handling of `ImplicitClient::ComputeResidualGradients`
(`implicit_client.cpp:197-209`). -/
def computeResidualGradientsCheckStatus (rpc_timeout : Nat) (status : GrpcStatus) : Except CppError Unit :=
  if status.isOkStatus then .ok ()
  else if status.code = .DEADLINE_EXCEEDED then
    .error (.runtime_error ("RPC timeout after " ++ toString rpc_timeout ++ "ms: " ++ status.message))
  else
    .error (.runtime_error ("ComputeResidualGradients RPC failed: [" ++
      toString (statusCodeNum status.code) ++ "] " ++ status.message))

/-- Status handling of `ExplicitClient::ComputeFunction`
(`explicit_client.cpp:89-92`): the `Finish()` status is read and
discarded (source comment: callers can check if outputs are valid);
nothing is thrown for any completion status. -/
def explicitComputeFunctionCheckStatus (_rpc_timeout : Nat) (_status : GrpcStatus) :
    Except CppError Unit :=
  .ok ()

/-- Status handling of `ExplicitClient::ComputeGradient`
(`explicit_client.cpp:136-139`): same as `ComputeFunction`. -/
def explicitComputeGradientCheckStatus (_rpc_timeout : Nat) (_status : GrpcStatus) :
    Except CppError Unit :=
  .ok ()

/-- Per-call record: whether the call configures its `ClientContext`
deadline from `rpc_timeout_` (`context.set_deadline(now + timeout)`),
and how it classifies the completion status. -/
structure ClientCallModel where
  sets_deadline : Bool
  checkStatus : Nat → GrpcStatus → Except CppError Unit

/-- `DisciplineClient::GetInfo` (`discipline_client.cpp:56-76`). -/
def getInfoCall : ClientCallModel := ⟨true, getInfoCheckStatus⟩

/-- `DisciplineClient::SendStreamOptions` (`discipline_client.cpp:78-95`). -/
def sendStreamOptionsCall : ClientCallModel := ⟨true, sendStreamOptionsCheckStatus⟩

/-- `DisciplineClient::SendOptions` (`discipline_client.cpp:97-114`). -/
def sendOptionsCall : ClientCallModel := ⟨true, sendOptionsCheckStatus⟩

/-- `DisciplineClient::Setup` (`discipline_client.cpp:116-133`). -/
def setupCall : ClientCallModel := ⟨true, setupCheckStatus⟩

/-- `DisciplineClient::GetVariableDefinitions` (`discipline_client.cpp:135-165`). -/
def getVariableDefinitionsCall : ClientCallModel := ⟨true, getVariableDefinitionsCheckStatus⟩

/-- `DisciplineClient::GetPartialDefinitions` (`discipline_client.cpp:167-197`). -/
def getPartialDefinitionsCall : ClientCallModel := ⟨true, getPartialDefinitionsCheckStatus⟩

/-- `ImplicitClient::ComputeResiduals` (`implicit_client.cpp:50-98`):
sets the deadline at `implicit_client.cpp:53`. -/
def computeResidualsCall : ClientCallModel := ⟨true, computeResidualsCheckStatus⟩

/-- `ImplicitClient::SolveResiduals` (`implicit_client.cpp:100-152`). -/
def solveResidualsCall : ClientCallModel := ⟨true, solveResidualsCheckStatus⟩

/-- `ImplicitClient::ComputeResidualGradients` (`implicit_client.cpp:154-212`). -/
def computeResidualGradientsCall : ClientCallModel := ⟨true, computeResidualGradientsCheckStatus⟩

/-- `ExplicitClient::ComputeFunction` (`explicit_client.cpp:55-94`):
its `ClientContext` is constructed at `explicit_client.cpp:57` and no
`set_deadline` call follows. -/
def explicitComputeFunctionCall : ClientCallModel := ⟨false, explicitComputeFunctionCheckStatus⟩

/-- `ExplicitClient::ComputeGradient` (`explicit_client.cpp:96-141`):
no `set_deadline` call either. -/
def explicitComputeGradientCall : ClientCallModel := ⟨false, explicitComputeGradientCheckStatus⟩

/-- C6 counterexample.  The claim asserts that **every** client call
carries the configurable deadline and classifies a deadline-exceeded
completion as an error embedding the timeout value.
`ExplicitClient::ComputeFunction` and `ComputeGradient` never set a
deadline on their `ClientContext` and return normally even when the
stream finishes with `DEADLINE_EXCEEDED`: no error is produced at all,
hence no message containing the timeout. -/
theorem explicit_compute_ignores_deadline :
    explicitComputeFunctionCall.sets_deadline = false ∧
    explicitComputeFunctionCall.checkStatus rpc_timeout_default
      { code := .DEADLINE_EXCEEDED, message := "deadline exceeded" } = .ok () ∧
    explicitComputeGradientCall.sets_deadline = false ∧
    explicitComputeGradientCall.checkStatus rpc_timeout_default
      { code := .DEADLINE_EXCEEDED, message := "deadline exceeded" } = .ok () :=
  ⟨rfl, rfl, rfl, rfl⟩

/-- C6 (amended).  The default timeout is 60000 ms; every
`DisciplineClient` negotiation call and every `ImplicitClient` compute
call sets the configurable deadline and, on a deadline-exceeded
completion, throws an error distinct from other failures whose message
embeds the configured timeout `T`; for any other failure code the error
message is the call's own failure text instead.  The two
`ExplicitClient` compute calls set no deadline and ignore the
completion status entirely. -/
theorem client_timeout_classification (T : Nat) (msg : String) :
    rpc_timeout_default = 60000 ∧
    (getInfoCall.sets_deadline = true ∧ sendStreamOptionsCall.sets_deadline = true ∧
      sendOptionsCall.sets_deadline = true ∧ setupCall.sets_deadline = true ∧
      getVariableDefinitionsCall.sets_deadline = true ∧
      getPartialDefinitionsCall.sets_deadline = true ∧
      computeResidualsCall.sets_deadline = true ∧ solveResidualsCall.sets_deadline = true ∧
      computeResidualGradientsCall.sets_deadline = true) ∧
    (getInfoCheckStatus T { code := .DEADLINE_EXCEEDED, message := msg } =
      .error (.runtime_error ("RPC timeout after " ++ toString T ++ "ms: " ++ msg)) ∧
    sendStreamOptionsCheckStatus T { code := .DEADLINE_EXCEEDED, message := msg } =
      .error (.runtime_error ("RPC timeout after " ++ toString T ++ "ms: " ++ msg)) ∧
    sendOptionsCheckStatus T { code := .DEADLINE_EXCEEDED, message := msg } =
      .error (.runtime_error ("RPC timeout after " ++ toString T ++ "ms: " ++ msg)) ∧
    setupCheckStatus T { code := .DEADLINE_EXCEEDED, message := msg } =
      .error (.runtime_error ("RPC timeout after " ++ toString T ++ "ms: " ++ msg)) ∧
    getVariableDefinitionsCheckStatus T { code := .DEADLINE_EXCEEDED, message := msg } =
      .error (.runtime_error ("RPC timeout after " ++ toString T ++ "ms: " ++ msg)) ∧
    getPartialDefinitionsCheckStatus T { code := .DEADLINE_EXCEEDED, message := msg } =
      .error (.runtime_error ("RPC timeout after " ++ toString T ++ "ms: " ++ msg)) ∧
    computeResidualsCheckStatus T { code := .DEADLINE_EXCEEDED, message := msg } =
      .error (.runtime_error ("RPC timeout after " ++ toString T ++ "ms: " ++ msg)) ∧
    solveResidualsCheckStatus T { code := .DEADLINE_EXCEEDED, message := msg } =
      .error (.runtime_error ("RPC timeout after " ++ toString T ++ "ms: " ++ msg)) ∧
    computeResidualGradientsCheckStatus T { code := .DEADLINE_EXCEEDED, message := msg } =
      .error (.runtime_error ("RPC timeout after " ++ toString T ++ "ms: " ++ msg))) ∧
    (getInfoCheckStatus T { code := .INTERNAL, message := msg } =
      .error (.runtime_error ("Failed to get discipline info [code=" ++
        toString (statusCodeNum .INTERNAL) ++ "]: " ++ msg)) ∧
    computeResidualsCheckStatus T { code := .INTERNAL, message := msg } =
      .error (.runtime_error ("ComputeResiduals RPC failed: [" ++
        toString (statusCodeNum .INTERNAL) ++ "] " ++ msg))) ∧
    (explicitComputeFunctionCall.sets_deadline = false ∧
    explicitComputeGradientCall.sets_deadline = false ∧
    explicitComputeFunctionCheckStatus T { code := .DEADLINE_EXCEEDED, message := msg } = .ok () ∧
    explicitComputeGradientCheckStatus T { code := .DEADLINE_EXCEEDED, message := msg } = .ok ()) := by
  refine ⟨rfl, ⟨rfl, rfl, rfl, rfl, rfl, rfl, rfl, rfl, rfl⟩,
    ⟨rfl, rfl, rfl, rfl, rfl, rfl, rfl, rfl, rfl⟩, ⟨rfl, rfl⟩, ⟨rfl, rfl, rfl, rfl⟩⟩

/-! ### C7: exceptions at the Setup/SetOptions RPC boundary -/

/-- `DisciplineServer::Setup` (`discipline_server.cpp:125-164`): after
clearing stale metadata, the user `Setup` hook runs inside try/catch,
then `SetupPartials` inside its own try/catch; each caught exception is
converted to an INTERNAL status.  A user hook is modelled by its
outcome; `.error` on the result would mean an exception escaping the
handler. -/
def disciplineServerSetup (setupHook setupPartialsHook : Except CppError Unit) :
    Except CppError GrpcStatus :=
  match setupHook with
  | .error _ =>
    .ok { code := .INTERNAL, message := "Internal server error during Setup call: exception." }
  | .ok () =>
    match setupPartialsHook with
    | .error _ =>
      .ok { code := .INTERNAL,
            message := "Internal server error during SetupPartials call: exception." }
    | .ok () => .ok { code := .OK, message := "" }

/-- `DisciplineServer::SetOptions` (`discipline_server.cpp:90-99`):
`discipline_->SetOptions(options)` is invoked with no try/catch around
it, so an exception thrown by the user hook leaves the handler. -/
def disciplineServerSetOptions (setOptionsHook : Except CppError Unit) :
    Except CppError GrpcStatus := do
  let _ ← setOptionsHook
  .ok { code := .OK, message := "" }

/-- C7 counterexample.  The claim asserts that every exception thrown by
the Setup, SetupPartials or SetOptions hooks is caught at the RPC
boundary and reported as an internal-error status.  An exception thrown
by the `SetOptions` hook escapes `DisciplineServer::SetOptions`
uncaught. -/
theorem setOptions_exception_escapes :
    disciplineServerSetOptions (.error (.runtime_error "boom")) =
      .error (.runtime_error "boom") := rfl

/-- C7 (amended).  Exceptions thrown by the user `Setup` and
`SetupPartials` hooks are caught by `DisciplineServer::Setup` and
reported as an INTERNAL status (the handler always returns a status,
never lets an exception escape); but `DisciplineServer::SetOptions` does
not wrap the user `SetOptions` hook, so that hook's exception propagates
out of the handler unconverted. -/
theorem server_hook_exception_handling (e1 e2 e3 : CppError)
    (p : Except CppError Unit) :
    (∀ s q : Except CppError Unit, ∃ st, disciplineServerSetup s q = .ok st) ∧
    (disciplineServerSetup (.error e1) p =
      .ok { code := .INTERNAL, message := "Internal server error during Setup call: exception." }) ∧
    (disciplineServerSetup (.ok ()) (.error e2) =
      .ok { code := .INTERNAL,
            message := "Internal server error during SetupPartials call: exception." }) ∧
    (disciplineServerSetup (.ok ()) (.ok ()) = .ok { code := .OK, message := "" }) ∧
    (disciplineServerSetOptions (.ok ()) = .ok { code := .OK, message := "" }) ∧
    (disciplineServerSetOptions (.error e3) = .error e3) := by
  refine ⟨?_, rfl, rfl, rfl, rfl, rfl⟩
  intro s q
  cases s with
  | error e => exact ⟨_, rfl⟩
  | ok u =>
    cases u
    cases q with
    | error e => exact ⟨_, rfl⟩
    | ok u => cases u; exact ⟨_, rfl⟩

/-! ### C8: role check on the implicit inbound streams -/

/-- `Variable()` (defaulted constructor, `variable.h:91`): empty shape
and buffer; the role tag is value-initialized (its particular value is
never observed by the embedded code paths). -/
def Variable.defaultV {alpha : Type} : Variable alpha :=
  { type_ := kInput, shape_ := [], data_ := [] }

/-- The `unordered_map` lookup table built by the implicit handlers
(`implicit.h:605-610`): entries are inserted in metadata order with
`var_lookup[var.name()] = &var`, so a later entry with the same name
overwrites an earlier one. -/
def varLookup (meta : List VariableMetaData) (name : String) : Option VariableMetaData :=
  meta.foldl (fun acc v => if v.name == name then some v else acc) none

/-- `inputs[name].AssignChunk(array)` on a `std::map`: `operator[]`
default-constructs a fresh Variable when the key is absent, then the
chunk is assigned into the (existing or fresh) variable and stored back
under the key; a thrown `AssignChunk` error propagates before any map
update is visible. -/
def mapAssignChunk {alpha : Type} (m : List (String × Variable alpha)) (k : String)
    (msg : ArrayMsg alpha) : Except CppError (List (String × Variable alpha)) :=
  match m.find? (fun p => p.1 == k) with
  | some p => do
    let v' ← p.2.AssignChunk msg
    .ok (m.map (fun q => if q.1 == k then (k, v') else q))
  | none => do
    let v' ← (Variable.defaultV).AssignChunk msg
    .ok (m ++ [(k, v')])

/-- The body of the inbound read loop of
`ImplicitServer::ComputeResidualsImpl` (`implicit.h:612-663`): resolve
the chunk's name in the lookup table (INVALID_ARGUMENT if unknown),
check that the chunk's role tag equals the metadata role
(INVALID_ARGUMENT `Type mismatch` BEFORE any `AssignChunk` call), then
assign into the inputs or outputs map according to the metadata role. -/
def implicitReceiveChunk {alpha : Type} (meta : List VariableMetaData)
    (inputs outputs : List (String × Variable alpha)) (msg : ArrayMsg alpha) :
    Except GrpcStatus (List (String × Variable alpha) × List (String × Variable alpha)) :=
  match varLookup meta msg.name with
  | none => .error { code := .INVALID_ARGUMENT, message := "Variable not found: " ++ msg.name }
  | some var =>
    if msg.type ≠ var.type then
      .error
        { code := .INVALID_ARGUMENT,
          message := "Type mismatch for variable " ++ msg.name ++ ": expected " ++
            toString (vtNum var.type) ++ " but received " ++ toString (vtNum msg.type) }
    else if var.type = kInput then
      match mapAssignChunk inputs msg.name msg with
      | .ok inputs' => .ok (inputs', outputs)
      | .error e =>
        .error
          { code := .INVALID_ARGUMENT,
            message := "Failed to assign chunk for input " ++ msg.name ++ ": " ++ e.what }
    else if var.type = kOutput then
      match mapAssignChunk outputs msg.name msg with
      | .ok outputs' => .ok (inputs, outputs')
      | .error e =>
        .error
          { code := .INVALID_ARGUMENT,
            message := "Failed to assign chunk for output " ++ msg.name ++ ": " ++ e.what }
    else
      .error
        { code := .INVALID_ARGUMENT,
          message := "Invalid variable type received for variable: " ++ msg.name }

/-- The body of the inbound read loop of
`ImplicitServer::ComputeResidualGradientsImpl` (`implicit.h:840-891`):
textually the same validation as `ComputeResidualsImpl`. -/
def implicitGradientsReceiveChunk {alpha : Type} (meta : List VariableMetaData)
    (inputs outputs : List (String × Variable alpha)) (msg : ArrayMsg alpha) :
    Except GrpcStatus (List (String × Variable alpha) × List (String × Variable alpha)) :=
  match varLookup meta msg.name with
  | none => .error { code := .INVALID_ARGUMENT, message := "Variable not found: " ++ msg.name }
  | some var =>
    if msg.type ≠ var.type then
      .error
        { code := .INVALID_ARGUMENT,
          message := "Type mismatch for variable " ++ msg.name ++ ": expected " ++
            toString (vtNum var.type) ++ " but received " ++ toString (vtNum msg.type) }
    else if var.type = kInput then
      match mapAssignChunk inputs msg.name msg with
      | .ok inputs' => .ok (inputs', outputs)
      | .error e =>
        .error
          { code := .INVALID_ARGUMENT,
            message := "Failed to assign chunk for input " ++ msg.name ++ ": " ++ e.what }
    else if var.type = kOutput then
      match mapAssignChunk outputs msg.name msg with
      | .ok outputs' => .ok (inputs, outputs')
      | .error e =>
        .error
          { code := .INVALID_ARGUMENT,
            message := "Failed to assign chunk for output " ++ msg.name ++ ": " ++ e.what }
    else
      .error
        { code := .INVALID_ARGUMENT,
          message := "Invalid variable type received for variable: " ++ msg.name }

/-- C8.  In both `ComputeResidualsImpl` and
`ComputeResidualGradientsImpl`, a chunk whose role tag disagrees with
the metadata role recorded for its name is rejected with an
INVALID_ARGUMENT `Type mismatch` status, and the rejection happens
before any `AssignChunk` call, so the error result carries no updated
variable map: no pre-sized buffer is modified by that chunk. -/
theorem implicit_role_mismatch_rejected {alpha : Type} (meta : List VariableMetaData)
    (inputs outputs : List (String × Variable alpha)) (msg : ArrayMsg alpha)
    (var : VariableMetaData) (hlook : varLookup meta msg.name = some var)
    (hmm : msg.type ≠ var.type) :
    implicitReceiveChunk meta inputs outputs msg =
      .error
        { code := .INVALID_ARGUMENT,
          message := "Type mismatch for variable " ++ msg.name ++ ": expected " ++
            toString (vtNum var.type) ++ " but received " ++ toString (vtNum msg.type) } ∧
    implicitGradientsReceiveChunk meta inputs outputs msg =
      .error
        { code := .INVALID_ARGUMENT,
          message := "Type mismatch for variable " ++ msg.name ++ ": expected " ++
            toString (vtNum var.type) ++ " but received " ++ toString (vtNum msg.type) } := by
  constructor
  · unfold implicitReceiveChunk
    rw [hlook]
    simp [hmm]
  · unfold implicitGradientsReceiveChunk
    rw [hlook]
    simp [hmm]

/-- C8 witness: a chunk tagged Output for a variable declared Input is
rejected by both implicit receive loops. -/
theorem implicit_role_mismatch_rejected_witness :
    implicitReceiveChunk [{ name := "x", type := kInput, shape := [1], units := "" }]
      [("x", ({ type_ := kInput, shape_ := [1], data_ := [0] } : Variable Int))] []
      { name := "x", subname := "", start := 0, end_ := 0, type := kOutput, data := [1] } =
      .error
        { code := .INVALID_ARGUMENT,
          message := "Type mismatch for variable x: expected 0 but received 2" } :=
  (implicit_role_mismatch_rejected
    [{ name := "x", type := kInput, shape := [1], units := "" }]
    [("x", ({ type_ := kInput, shape_ := [1], data_ := [0] } : Variable Int))] []
    { name := "x", subname := "", start := 0, end_ := 0, type := kOutput, data := [1] }
    { name := "x", type := kInput, shape := [1], units := "" }
    (by decide) (by decide)).1

/-! ### C9: cancellation checks on the outbound send loops -/

/-- The outbound loop of `ExplicitServer::ComputeFunction`
(`explicit_server.cpp:151-164`): each output Variable is sent with
`out.second.Send(name, "", stream, chunk_size)`.  The handler's
`ServerContext* context` parameter is NOT passed on to `Send` (the same
is true of every other compute handler's send loop:
`explicit_server.cpp:260-274`, `implicit.h:676-689`, `implicit.h:783-796`
and `implicit.h:915-929`), so the cancellation check inside the server
`Send` overload runs with a null context.  A thrown send error becomes
an INTERNAL status. -/
def explicitComputeFunctionSendOutputs {alpha : Type} :
    List (String × Variable alpha) → Nat → Except GrpcStatus (List (ArrayMsg alpha))
  | [], _ => .ok []
  | (name, v) :: rest, chunk_size =>
    match v.SendServer name "" chunk_size none with
    | .error e =>
      .error
        { code := .INTERNAL, message := "Failed to send output " ++ name ++ ": " ++ e.what }
    | .ok chunks =>
      match explicitComputeFunctionSendOutputs rest chunk_size with
      | .error st => .error st
      | .ok more => .ok (chunks ++ more)

theorem sendServerGo_none_eq {alpha : Type} (v : Variable alpha) (name subname : String)
    (chunk_size n : Nat) : ∀ (k i : Nat),
    sendServerGo v name subname chunk_size n none i k =
      sendClientGo v name subname chunk_size n i k := by
  intro k
  induction k with
  | zero => intro i; rfl
  | succ k ih =>
    intro i
    simp only [sendServerGo, sendClientGo]
    have hc : ¬((none : Option Bool) = some true) := by simp
    rw [if_neg hc]
    simp only [ih]

/-- C9 counterexample.  The claim asserts that, in every server-side
compute handler, the per-call cancellation signal is checked before each
outbound chunk and that once it is set no further chunk is written.  The
check exists inside the server `Variable::Send` overload — it aborts
before the first chunk when handed a cancelled context (first conjunct)
— but the handlers never pass their `ServerContext` to `Send`, so the
handler send phase is a function of the outputs alone: with the
per-call signal set, both chunks of a two-chunk output are still
written (second conjunct shows the full two-chunk emission; no
cancellation error can ever arise on this path). -/
theorem handler_send_ignores_cancellation :
    ((({ type_ := kOutput, shape_ := [2], data_ := [5, 6] } : Variable Int).SendServer
        "y" "" 1 (some true)) =
      .error (.runtime_error "Operation cancelled while sending variable y")) ∧
    (explicitComputeFunctionSendOutputs
        [("y", ({ type_ := kOutput, shape_ := [2], data_ := [5, 6] } : Variable Int))] 1 =
      .ok [{ name := "y", subname := "", start := 0, end_ := 0, type := kOutput, data := [5] },
           { name := "y", subname := "", start := 1, end_ := 1, type := kOutput, data := [6] }]) :=
  ⟨rfl, rfl⟩

/-- C9 (amended).  The server `Variable::Send` overload
(`variable.cpp:198-236`) checks `context->IsCancelled()` before each
chunk and aborts the remaining loop with a cancellation error — when it
is given a non-null context, it aborts before even the first chunk of a
cancelled call; but every compute handler invokes `Send` without its
`ServerContext`, and with a null context the per-chunk check is
vacuous: the send behaves exactly like the context-free client `Send`,
emitting every chunk regardless of the call's cancellation state. -/
theorem server_send_cancellation_spec {alpha : Type} (v : Variable alpha)
    (name subname : String) (chunk_size : Nat) (hcs : 1 ≤ chunk_size) :
    (v.SendServer name subname chunk_size (some true) =
      .error (.runtime_error ("Operation cancelled while sending variable " ++ name))) ∧
    (v.SendServer name subname chunk_size none = v.SendClient name subname chunk_size) := by
  constructor
  · have hgo : ∀ i k, sendServerGo v name subname chunk_size v.Size (some true) i (k + 1) =
        .error (.runtime_error ("Operation cancelled while sending variable " ++ name)) := by
      intro i k
      simp [sendServerGo]
    show sendServerGo v name subname chunk_size v.Size (some true) 0
        (if v.Size / chunk_size = 0 then 1 else v.Size / chunk_size) =
      Except.error (CppError.runtime_error ("Operation cancelled while sending variable " ++ name))
    split_ifs with h
    · exact hgo 0 0
    · obtain ⟨k, hk⟩ := Nat.exists_eq_succ_of_ne_zero h
      rw [hk]
      exact hgo 0 k
  · unfold Variable.SendServer Variable.SendClient
    rw [sendServerGo_none_eq]

/-- C9 witness: the amended theorem at a two-element buffer with chunk
size 1. -/
theorem server_send_cancellation_spec_witness :
    (({ type_ := kOutput, shape_ := [2], data_ := [7, 9] } : Variable Int).SendServer
      "z" "" 1 none) =
      (({ type_ := kOutput, shape_ := [2], data_ := [7, 9] } : Variable Int).SendClient
      "z" "" 1) :=
  (server_send_cancellation_spec
    ({ type_ := kOutput, shape_ := [2], data_ := [7, 9] } : Variable Int)
    "z" "" 1 (by decide)).2

end Philote
